import Mathlib

/-!
Shallow embedding of `app.py`, a Streamlit teaching-assistant demo.

The app keeps three session-scoped lists (`chat_history`, `ideas`,
`feedback`), a placeholder answer generator `_fake_answer`, and three
render functions whose only state effects are appends guarded by
Python truthiness / `str.strip()` checks.  External widget calls
(`st.chat_input`, `st.text_area`, `st.button`) deliver the user's
input; we model each handler as a function from that input and the
current session state to the next session state.  `datetime.utcnow()`
is an external clock; the timestamp string it produces is passed in as
a parameter and stored verbatim.
-/

/-- Role tag of a chat message (`msg["role"]` in the source). -/
inductive Role
  | user
  | assistant
deriving DecidableEq

/-- One entry of `st.session_state.chat_history`: `{"role": ..., "content": ...}`. -/
structure ChatMsg where
  role : Role
  content : String
deriving DecidableEq

/-- One entry of `st.session_state.ideas`: `{"text": ..., "ref": ..., "ts": ...}`. -/
structure Idea where
  text : String
  ref : String
  ts : String
deriving DecidableEq

/-- One entry of `st.session_state.feedback`: `{"text": ..., "ts": ...}`. -/
structure Feedback where
  text : String
  ts : String
deriving DecidableEq

/-- The three session-state lists the app mutates. -/
structure AppState where
  chat_history : List ChatMsg
  ideas : List Idea
  feedback : List Feedback
deriving DecidableEq

/-- Fresh session state: all three lists empty. -/
def initial : AppState := ⟨[], [], []⟩

/-- `st.session_state` before `_init_state` has necessarily run: each of the
three keys is either absent (`none`) or holds its list. -/
structure SessionKeys where
  chat_history : Option (List ChatMsg)
  ideas : Option (List Idea)
  feedback : Option (List Feedback)
deriving DecidableEq

/-- `_init_state`: for each key, `if key not in st.session_state: key = []`. -/
def init_state (s : SessionKeys) : SessionKeys where
  chat_history := match s.chat_history with
    | none => some []
    | some l => some l
  ideas := match s.ideas with
    | none => some []
    | some l => some l
  feedback := match s.feedback with
    | none => some []
    | some l => some l

/-- `REFERENCE_MATERIALS` from the source. -/
def REFERENCE_MATERIALS : List String := ["Serway", "Halliday", "Mechanics"]

/-- Python truthiness fallback `x if x else d` for an optional string:
`None` and `""` are falsy, every other string is returned unchanged. -/
def pyOrElse : Option String → String → String
  | none, d => d
  | some t, d => if t = "" then d else t

/-- `_fake_answer(question, ref)`: the f-string built in the source,
with `ref_text = ref if ref else "선택된 교재 없음"`. -/
def fake_answer (question : String) (ref : Option String) : String :=
  "질문 요약: " ++ question ++ "\n\n" ++
    "참고한 교재: " ++ pyOrElse ref "선택된 교재 없음" ++ "\n" ++
    "→ 실제 모델 연동 시 여기에 근거 기반 답변을 생성하세요."

/-- `_render_chat(selected_ref)`: `prompt` is what `st.chat_input` returned
(`none` when nothing was submitted).  `if prompt:` is Python truthiness, so
`None` and `""` are ignored; otherwise the user message and the generated
assistant answer are appended to `chat_history`. -/
def render_chat (selected_ref : Option String) (prompt : Option String)
    (s : AppState) : AppState :=
  match prompt with
  | none => s
  | some p =>
    if p = "" then s
    else
      { s with chat_history := s.chat_history ++
          [⟨Role.user, p⟩, ⟨Role.assistant, fake_answer p selected_ref⟩] }

/-- Characters removed by Python `str.strip()`: CPython's
`Py_UNICODE_ISSPACE` set — the ASCII whitespace `\t \n \v \f \r` and
space, the separators U+001C–U+001F, NEL U+0085, NBSP U+00A0, Ogham
space U+1680, the U+2000–U+200A spaces, the line and paragraph
separators U+2028/U+2029, U+202F, U+205F, and the ideographic space
U+3000. -/
def pyIsSpace (c : Char) : Bool :=
  let n := c.toNat
  n = 0x20 || n = 0x9 || n = 0xa || n = 0xb || n = 0xc || n = 0xd ||
    (0x1c ≤ n && n ≤ 0x1f) || n = 0x85 || n = 0xa0 || n = 0x1680 ||
    (0x2000 ≤ n && n ≤ 0x200a) || n = 0x2028 || n = 0x2029 ||
    n = 0x202f || n = 0x205f || n = 0x3000

/-- Python `s.strip()`: drop whitespace from both ends. -/
def pyStrip (s : String) : String :=
  String.mk (((s.data.dropWhile pyIsSpace).reverse.dropWhile pyIsSpace).reverse)

/-- The submit branch of `_render_idea_panel(selected_ref)`: on button press
with text `idea`, warn (second component `true`) when `idea.strip()` is
falsy, else append `{"text": idea.strip(), "ref": selected_ref if
selected_ref else "참고 교재 없음", "ts": ts}` to `ideas`. -/
def submit_idea (selected_ref : Option String) (idea : String) (ts : String)
    (s : AppState) : AppState × Bool :=
  if pyStrip idea = "" then (s, true)
  else
    ({ s with ideas := s.ideas ++
        [⟨pyStrip idea, pyOrElse selected_ref "참고 교재 없음", ts⟩] }, false)

/-- The submit branch of `_render_feedback_panel()`: warn on falsy
`feedback.strip()`, else append `{"text": feedback.strip(), "ts": ts}`. -/
def submit_feedback (feedback : String) (ts : String)
    (s : AppState) : AppState × Bool :=
  if pyStrip feedback = "" then (s, true)
  else ({ s with feedback := s.feedback ++ [⟨pyStrip feedback, ts⟩] }, false)

/-- The markdown line `_render_idea_panel` emits for one stored idea. -/
def idea_line (item : Idea) : String :=
  "- (" ++ item.ts ++ " UTC) " ++ item.text ++ "  \n" ++ "  참고: " ++ item.ref

/-- The markdown line `_render_feedback_panel` emits for one stored entry. -/
def feedback_line (item : Feedback) : String :=
  "- (" ++ item.ts ++ " UTC) " ++ item.text

/-- The list section of `_render_idea_panel`: nothing when `ideas` is empty
(`if st.session_state.ideas:`), else one line per item over
`reversed(st.session_state.ideas)`. -/
def displayed_ideas (l : List Idea) : List String :=
  if l = [] then [] else l.reverse.map idea_line

/-- The list section of `_render_feedback_panel`, same shape. -/
def displayed_feedback (l : List Feedback) : List String :=
  if l = [] then [] else l.reverse.map feedback_line

/-- The two messages one accepted chat submission appends
(submission = selected reference paired with the prompt text). -/
def chat_pair (sub : Option String × String) : List ChatMsg :=
  [⟨Role.user, sub.2⟩, ⟨Role.assistant, fake_answer sub.2 sub.1⟩]

/-- Run a sequence of chat submissions through `render_chat`. -/
def chat_run (subs : List (Option String × String)) (s : AppState) : AppState :=
  subs.foldl (fun st sub => render_chat sub.1 (some sub.2) st) s

/-- The chat history has user/assistant strictly alternating, user first,
and even length. -/
def chatShapeOk : List ChatMsg → Bool
  | [] => true
  | [_] => false
  | u :: a :: rest =>
      (u.role = Role.user) && (a.role = Role.assistant) && chatShapeOk rest

/-! ### Chat panel: empty-input handling (C1) -/

/-- Claim C1 counterexample: submitting the whitespace-only prompt `" "`
does change the chat state — `if prompt:` in `_render_chat` only rejects
`None` and the empty string, so a non-empty whitespace prompt is appended
together with a generated answer. -/
theorem render_chat_whitespace_transitions :
    render_chat none (some " ") initial ≠ initial ∧
    (render_chat none (some " ") initial).chat_history.length = 2 := by
  constructor
  · decide
  · decide

/-- Claim C1 (amended): submitting nothing, or the empty prompt, causes no
state transition in `_render_chat`: nothing is appended and no answer is
generated.  (A whitespace-only but non-empty prompt is accepted.) -/
theorem render_chat_empty_noop (ref : Option String) (s : AppState) :
    render_chat ref none s = s ∧ render_chat ref (some "") s = s := by
  constructor
  · rfl
  · simp [render_chat]

/-! ### Placeholder answer generator (C2) -/

/-- Claim C2: for every question `q` and reference `r` drawn from
`REFERENCE_MATERIALS` or absent, `fake_answer q r` contains `q` verbatim,
contains the resolved reference text — which is `r`'s name when a
reference is selected and the fixed marker `"선택된 교재 없음"` when none is —
and ends with the fixed explanatory placeholder suffix. -/
theorem fake_answer_spec (q : String) (r : Option String)
    (h : r = none ∨ ∃ t, r = some t ∧ t ∈ REFERENCE_MATERIALS) :
    (q.data <:+: (fake_answer q r).data) ∧
    ((pyOrElse r "선택된 교재 없음").data <:+: (fake_answer q r).data) ∧
    (r = none → pyOrElse r "선택된 교재 없음" = "선택된 교재 없음") ∧
    (∀ t, r = some t → pyOrElse r "선택된 교재 없음" = t) ∧
    ("→ 실제 모델 연동 시 여기에 근거 기반 답변을 생성하세요.".data <:+
      (fake_answer q r).data) := by
  refine ⟨?_, ?_, ?_, ?_, ?_⟩
  · refine ⟨"질문 요약: ".data,
      ("\n\n" ++ "참고한 교재: " ++ pyOrElse r "선택된 교재 없음" ++ "\n" ++
        "→ 실제 모델 연동 시 여기에 근거 기반 답변을 생성하세요.").data, ?_⟩
    simp [fake_answer, String.data_append, List.append_assoc]
  · refine ⟨("질문 요약: " ++ q ++ "\n\n" ++ "참고한 교재: ").data,
      ("\n" ++ "→ 실제 모델 연동 시 여기에 근거 기반 답변을 생성하세요.").data, ?_⟩
    simp [fake_answer, String.data_append, List.append_assoc]
  · intro hr
    subst hr
    rfl
  · intro t ht
    subst ht
    have hne : t ≠ "" := by
      rcases h with h | ⟨t', ht', hmem⟩
      · exact absurd h (by simp)
      · have : t = t' := by
          injection ht'
        subst this
        intro heq
        subst heq
        simp [REFERENCE_MATERIALS] at hmem
    simp [pyOrElse, hne]
  · refine ⟨("질문 요약: " ++ q ++ "\n\n" ++ "참고한 교재: " ++
      pyOrElse r "선택된 교재 없음" ++ "\n").data, ?_⟩
    simp [fake_answer, String.data_append, List.append_assoc]

/-- Concrete instance of `fake_answer_spec` at question `"Q"` and
reference `"Halliday"`. -/
theorem fake_answer_spec_witness :
    ("Q".data <:+: (fake_answer "Q" (some "Halliday")).data) ∧
    ((pyOrElse (some "Halliday") "선택된 교재 없음").data <:+:
      (fake_answer "Q" (some "Halliday")).data) ∧
    ((some "Halliday" : Option String) = none →
      pyOrElse (some "Halliday") "선택된 교재 없음" = "선택된 교재 없음") ∧
    (∀ t, (some "Halliday" : Option String) = some t →
      pyOrElse (some "Halliday") "선택된 교재 없음" = t) ∧
    ("→ 실제 모델 연동 시 여기에 근거 기반 답변을 생성하세요.".data <:+
      (fake_answer "Q" (some "Halliday")).data) :=
  fake_answer_spec "Q" (some "Halliday")
    (Or.inr ⟨"Halliday", rfl, by decide⟩)

/-! ### Idea and feedback panels: empty-input handling (C4) -/

/-- Claim C4: when the submitted idea or feedback text strips to the empty
string, the respective handler changes no state at all and takes the
warning path (second component `true`). -/
theorem empty_submission_noop (ref : Option String) (text ts : String)
    (s : AppState) (h : pyStrip text = "") :
    submit_idea ref text ts s = (s, true) ∧
    submit_feedback text ts s = (s, true) := by
  constructor
  · simp [submit_idea, h]
  · simp [submit_feedback, h]

/-- Concrete instance of `empty_submission_noop` at a whitespace-only
text mixing an ASCII space with NBSP (U+00A0) and the ideographic space
(U+3000), all of which `str.strip()` removes. -/
theorem empty_submission_noop_witness :
    submit_idea (some "Serway") "\u00A0 \u3000" "2025-01-01T00:00:00"
        initial = (initial, true) ∧
    submit_feedback "\u00A0 \u3000" "2025-01-01T00:00:00" initial =
      (initial, true) :=
  empty_submission_noop (some "Serway") "\u00A0 \u3000"
    "2025-01-01T00:00:00" initial (by decide)

/-! ### Rendering order of the idea and feedback lists (C6) -/

/-- Claim C6: the rendered idea list and the rendered feedback list are
each exactly the reverse of the submission-order sequence (most recent
record first). -/
theorem displayed_lists_reverse (ideas : List Idea) (fb : List Feedback) :
    displayed_ideas ideas = (ideas.map idea_line).reverse ∧
    displayed_feedback fb = (fb.map feedback_line).reverse := by
  constructor
  · by_cases h : ideas = [] <;> simp [displayed_ideas, h, List.map_reverse]
  · by_cases h : fb = [] <;> simp [displayed_feedback, h, List.map_reverse]

/-! ### Session-state initializer (C7) -/

/-- Claim C7: `_init_state` sets all three sequences to empty when the keys
are absent, and leaves every state in which the three keys exist entirely
unchanged (hence it is idempotent). -/
theorem init_state_spec :
    init_state ⟨none, none, none⟩ = ⟨some [], some [], some []⟩ ∧
    (∀ (a : List ChatMsg) (b : List Idea) (c : List Feedback),
      init_state ⟨some a, some b, some c⟩ = ⟨some a, some b, some c⟩) ∧
    (∀ s : SessionKeys, init_state (init_state s) = init_state s) := by
  refine ⟨rfl, fun a b c => rfl, fun s => ?_⟩
  rcases s with ⟨_ | a, _ | b, _ | c⟩ <;> rfl

/-! ### Chat history shape under repeated submissions (C3) -/

/-- An accepted (non-empty) prompt appends exactly its user/assistant pair. -/
theorem render_chat_accepts (ref : Option String) (p : String) (hp : p ≠ "")
    (s : AppState) :
    render_chat ref (some p) s =
      { s with chat_history := s.chat_history ++ chat_pair (ref, p) } := by
  simp [render_chat, hp, chat_pair]

/-- Running accepted submissions concatenates their pairs after the
existing history. -/
theorem chat_run_flatten (subs : List (Option String × String)) (s : AppState)
    (h : ∀ x ∈ subs, x.2 ≠ "") :
    (chat_run subs s).chat_history =
      s.chat_history ++ (subs.map chat_pair).flatten := by
  induction subs generalizing s with
  | nil => simp [chat_run]
  | cons a l ih =>
    have ha : a.2 ≠ "" := h a (List.mem_cons_self a l)
    have hl : ∀ x ∈ l, x.2 ≠ "" := fun x hx => h x (List.mem_cons_of_mem a hx)
    show (chat_run l (render_chat a.1 (some a.2) s)).chat_history = _
    rw [ih _ hl, render_chat_accepts a.1 a.2 ha s]
    simp [List.append_assoc]

/-- Each submission contributes exactly two messages. -/
theorem flatten_pairs_length (subs : List (Option String × String)) :
    ((subs.map chat_pair).flatten).length = 2 * subs.length := by
  induction subs with
  | nil => simp
  | cons a l ih => simp [chat_pair, ih]; omega

/-- The concatenated pairs alternate user then assistant. -/
theorem chatShapeOk_flatten_pairs (subs : List (Option String × String)) :
    chatShapeOk ((subs.map chat_pair).flatten) = true := by
  induction subs with
  | nil => rfl
  | cons a l ih => simpa [chat_pair, chatShapeOk] using ih

/-- Claim C3: starting from the empty history, `N` accepted chat
submissions leave exactly the concatenation of their user/assistant pairs
in order — `2N` entries, alternating user then assistant — and a further
accepted submission only appends (prior entries are a prefix, never
removed, reordered, or modified). -/
theorem chat_history_shape (subs : List (Option String × String))
    (h : ∀ x ∈ subs, x.2 ≠ "") (ref : Option String) (p : String)
    (hp : p ≠ "") (s : AppState) :
    (chat_run subs initial).chat_history = (subs.map chat_pair).flatten ∧
    (chat_run subs initial).chat_history.length = 2 * subs.length ∧
    chatShapeOk (chat_run subs initial).chat_history = true ∧
    render_chat ref (some p) s =
      { s with chat_history := s.chat_history ++
          [⟨Role.user, p⟩, ⟨Role.assistant, fake_answer p ref⟩] } ∧
    (∃ t, s.chat_history ++ t = (render_chat ref (some p) s).chat_history) := by
  have hrun : (chat_run subs initial).chat_history =
      (subs.map chat_pair).flatten := by
    simpa [initial] using chat_run_flatten subs initial h
  refine ⟨hrun, ?_, ?_, ?_, ?_⟩
  · rw [hrun]
    exact flatten_pairs_length subs
  · rw [hrun]
    exact chatShapeOk_flatten_pairs subs
  · simpa [chat_pair] using render_chat_accepts ref p hp s
  · refine ⟨chat_pair (ref, p), ?_⟩
    rw [render_chat_accepts ref p hp s]

/-- Concrete instance of `chat_history_shape`: one submission with
reference `"Halliday"`, then a further accepted prompt `"hi"`. -/
theorem chat_history_shape_witness :
    (chat_run [(some "Halliday", "What is Newton's second law?")]
        initial).chat_history =
      ([(some "Halliday", "What is Newton's second law?")].map
        chat_pair).flatten ∧
    (chat_run [(some "Halliday", "What is Newton's second law?")]
        initial).chat_history.length =
      2 * [(some "Halliday", "What is Newton's second law?")].length ∧
    chatShapeOk (chat_run [(some "Halliday", "What is Newton's second law?")]
        initial).chat_history = true ∧
    render_chat none (some "hi") initial =
      { initial with chat_history := initial.chat_history ++
          [⟨Role.user, "hi"⟩, ⟨Role.assistant, fake_answer "hi" none⟩] } ∧
    (∃ t, initial.chat_history ++ t =
      (render_chat none (some "hi") initial).chat_history) :=
  chat_history_shape [(some "Halliday", "What is Newton's second law?")]
    (by decide) none "hi" (by decide) initial

/-! ### Idea submission with non-blank text (C5) -/

/-- Claim C5 counterexample: the whitespace-only idea text `" "` has
length `> 0`, yet submitting it appends nothing (the warning path is
taken), so the ideas sequence does not grow by 1. -/
theorem submit_idea_positive_length_fails :
    " ".length > 0 ∧
    submit_idea none " " "2025-01-01T00:00:00" initial = (initial, true) ∧
    (submit_idea none " " "2025-01-01T00:00:00" initial).1.ideas.length ≠
      initial.ideas.length + 1 := by
  refine ⟨by decide, by decide, by decide⟩

/-- Claim C5 (amended): for every submitted idea text whose stripped form
is non-empty, the ideas sequence grows by exactly 1, and the appended
record holds the trimmed text, the reference selection active at
submission time (the marker `"참고 교재 없음"` when none), and the provided
timestamp; the success path is taken. -/
theorem submit_idea_appends (ref : Option String) (text ts : String)
    (s : AppState) (h : pyStrip text ≠ "") :
    (submit_idea ref text ts s).1 =
      { s with ideas := s.ideas ++
          [⟨pyStrip text, pyOrElse ref "참고 교재 없음", ts⟩] } ∧
    (submit_idea ref text ts s).1.ideas.length = s.ideas.length + 1 ∧
    (submit_idea ref text ts s).2 = false := by
  refine ⟨?_, ?_, ?_⟩ <;> simp [submit_idea, h]

/-- Concrete instance of `submit_idea_appends` at a text edged by the
ideographic space U+3000 and NBSP U+00A0, with reference `"Serway"`: the
stored text is the Unicode-stripped `"more quizzes"`. -/
theorem submit_idea_appends_witness :
    (submit_idea (some "Serway") "\u3000more quizzes\u00A0"
        "2025-01-01T00:00:00" initial).1 =
      { initial with ideas := initial.ideas ++
          [⟨pyStrip "\u3000more quizzes\u00A0",
            pyOrElse (some "Serway") "참고 교재 없음",
            "2025-01-01T00:00:00"⟩] } ∧
    (submit_idea (some "Serway") "\u3000more quizzes\u00A0"
        "2025-01-01T00:00:00" initial).1.ideas.length =
      initial.ideas.length + 1 ∧
    (submit_idea (some "Serway") "\u3000more quizzes\u00A0"
        "2025-01-01T00:00:00" initial).2 = false :=
  submit_idea_appends (some "Serway") "\u3000more quizzes\u00A0"
    "2025-01-01T00:00:00" initial (by decide)

/-! ### Frame effects of the three handlers (C8) -/

/-- Claim C8: each handler mutates only its own sequence — a chat
submission leaves `ideas` and `feedback` unchanged, an idea submission
leaves `chat_history` and `feedback` unchanged, and a feedback submission
leaves `chat_history` and `ideas` unchanged. -/
theorem frame_effects (ref prompt : Option String) (t ts : String)
    (s : AppState) :
    (render_chat ref prompt s).ideas = s.ideas ∧
    (render_chat ref prompt s).feedback = s.feedback ∧
    (submit_idea ref t ts s).1.chat_history = s.chat_history ∧
    (submit_idea ref t ts s).1.feedback = s.feedback ∧
    (submit_feedback t ts s).1.chat_history = s.chat_history ∧
    (submit_feedback t ts s).1.ideas = s.ideas := by
  refine ⟨?_, ?_, ?_, ?_, ?_, ?_⟩
  · cases prompt with
    | none => rfl
    | some p => by_cases hp : p = "" <;> simp [render_chat, hp]
  · cases prompt with
    | none => rfl
    | some p => by_cases hp : p = "" <;> simp [render_chat, hp]
  · by_cases h : pyStrip t = "" <;> simp [submit_idea, h]
  · by_cases h : pyStrip t = "" <;> simp [submit_idea, h]
  · by_cases h : pyStrip t = "" <;> simp [submit_feedback, h]
  · by_cases h : pyStrip t = "" <;> simp [submit_feedback, h]

/-! ### Stored idea reference is never missing (C9) -/

/-- Claim C9: every idea record appended by a submission carries a
non-empty reference string — the literal marker `"참고 교재 없음"` when no
reference is selected — so rendering an idea never meets a missing
reference. -/
theorem idea_ref_always_present (ref : Option String) (text ts : String)
    (s : AppState) (h : pyStrip text ≠ "") :
    ∃ r : Idea, (submit_idea ref text ts s).1.ideas = s.ideas ++ [r] ∧
      r.ref ≠ "" ∧ (ref = none → r.ref = "참고 교재 없음") := by
  refine ⟨⟨pyStrip text, pyOrElse ref "참고 교재 없음", ts⟩, ?_, ?_, ?_⟩
  · simp [submit_idea, h]
  · show pyOrElse ref "참고 교재 없음" ≠ ""
    cases ref with
    | none => decide
    | some t =>
      by_cases ht : t = ""
      · subst ht
        decide
      · simp [pyOrElse, ht]
  · intro hr
    subst hr
    rfl

/-- Concrete instance of `idea_ref_always_present` with no reference
selected. -/
theorem idea_ref_always_present_witness :
    ∃ r : Idea,
      (submit_idea none "add quizzes" "2025-01-01T00:00:00"
        initial).1.ideas = initial.ideas ++ [r] ∧
      r.ref ≠ "" ∧ ((none : Option String) = none → r.ref = "참고 교재 없음") :=
  idea_ref_always_present none "add quizzes" "2025-01-01T00:00:00" initial
    (by decide)

/-! ### Chat stores the raw prompt; idea/feedback store trimmed text (C10) -/

/-- Claim C10: an accepted chat submission stores the prompt exactly as
submitted (no trimming or normalization), whereas idea and feedback
submissions store the stripped text — and stripping is not the identity,
e.g. on `" hi "`. -/
theorem chat_content_untrimmed (ref : Option String) (p t ts : String)
    (s : AppState) (hp : p ≠ "") (ht : pyStrip t ≠ "") :
    (render_chat ref (some p) s).chat_history =
      s.chat_history ++
        [⟨Role.user, p⟩, ⟨Role.assistant, fake_answer p ref⟩] ∧
    (submit_idea ref t ts s).1.ideas =
      s.ideas ++ [⟨pyStrip t, pyOrElse ref "참고 교재 없음", ts⟩] ∧
    (submit_feedback t ts s).1.feedback = s.feedback ++ [⟨pyStrip t, ts⟩] ∧
    pyStrip " hi " ≠ " hi " := by
  refine ⟨?_, ?_, ?_, ?_⟩
  · simp [render_chat, hp]
  · simp [submit_idea, ht]
  · simp [submit_feedback, ht]
  · decide

/-- Concrete instance of `chat_content_untrimmed`: the chat stores the
prompt `" hi "` verbatim, while idea and feedback submissions of a text
edged by the ideographic space U+3000 store its stripped form `"hi"`. -/
theorem chat_content_untrimmed_witness :
    (render_chat none (some " hi ") initial).chat_history =
      initial.chat_history ++
        [⟨Role.user, " hi "⟩, ⟨Role.assistant, fake_answer " hi " none⟩] ∧
    (submit_idea none "\u3000hi " "2025-01-01T00:00:00" initial).1.ideas =
      initial.ideas ++
        [⟨pyStrip "\u3000hi ", pyOrElse none "참고 교재 없음",
          "2025-01-01T00:00:00"⟩] ∧
    (submit_feedback "\u3000hi " "2025-01-01T00:00:00" initial).1.feedback =
      initial.feedback ++ [⟨pyStrip "\u3000hi ", "2025-01-01T00:00:00"⟩] ∧
    pyStrip " hi " ≠ " hi " :=
  chat_content_untrimmed none " hi " "\u3000hi " "2025-01-01T00:00:00"
    initial (by decide) (by decide)
